import Mathlib

/-!
Verification of the Glyph argument-reflection and control/prop-generation
pipeline.

The development shallowly embeds the core of the repository:

* `src/lib/types.ts` — the `Argument` class hierarchy (`Metric`, `Dimension`,
  `Temporal`, `Int`, `Color`, `Palette`) with its class-level static
  configuration and the `with(options)` configuration factories.
* `src/lib/createChart.tsx` — the tiered parameter classifier
  `extractArgumentsFromMetadata` together with the `ArgumentClassRegistry`.
* `src/lib/interfaces/superset.ts` — `hexToRgba` / `rgbaToHex`,
  `generateControlPanel` and `generateTransformProps`.

JavaScript classes are modelled as first-class values of type `ArgClass`
carrying their static fields; JS `Map`s and objects become association lists
preserving insertion order; `undefined` becomes `Option`; JS `||` on strings
is modelled with the empty string as the only falsy string.  Since the Lean
names `Int`, `Color` and `Metric` collide with Lean/Mathlib declarations, the
embedded classes are named `IntC`, `ColorC`, `MetricC`, and so on; the static
method `with` (a Lean keyword) is rendered `withOptions`.
-/

namespace Glyph

/-- Model of the `ColumnType` enum of `src/lib/types.ts`. -/
inductive ColumnType where
  | metric
  | dimension
  | temporal
  | argument
deriving DecidableEq, Repr

/-- The built-in class a (possibly `with`-derived) Argument class ultimately
extends.  `argClass.prototype instanceof Int` holds exactly when the nearest
built-in ancestor is `Int`, and similarly for the other built-ins, so this
field decides the `instanceof` tests in `superset.ts`. -/
inductive BuiltinKind where
  | argument
  | metric
  | dimension
  | temporal
  | int
  | color
  | palette
deriving DecidableEq, Repr

/-- Model of a JS Argument class value: the static fields declared on the
classes of `src/lib/types.ts` plus the identity data the classifier uses.
`name` is the JS `class.name` (the empty string for the anonymous classes
produced by `with`). Static fields that are not declared anywhere on the
prototype chain of a given class are `none` (JS `undefined`). -/
structure ArgClass where
  kind : BuiltinKind
  name : String
  types : List ColumnType
  label : Option String
  description : Option String
  intDefault : Option Int := none
  intMin : Option Int := none
  intMax : Option Int := none
  colorDefault : Option String := none
deriving DecidableEq, Repr

/-- The `Argument` base class (`src/lib/types.ts`). -/
def ArgumentC : ArgClass :=
  { kind := .argument
    name := "Argument"
    types := [.argument]
    label := none
    description := none }

/-- The `Metric` class. -/
def MetricC : ArgClass :=
  { kind := .metric
    name := "Metric"
    types := [.metric]
    label := some "Metric"
    description := some "A numeric aggregation (SUM, COUNT, AVG, etc.)" }

/-- The `Dimension` class. -/
def DimensionC : ArgClass :=
  { kind := .dimension
    name := "Dimension"
    types := [.dimension]
    label := some "Dimension"
    description := some "A categorical column for grouping data" }

/-- The `Temporal` class. -/
def TemporalC : ArgClass :=
  { kind := .temporal
    name := "Temporal"
    types := [.temporal]
    label := some "Time Column"
    description := some "A temporal column for time series data" }

/-- The `Int` class with its static `default`/`min`/`max`. -/
def IntC : ArgClass :=
  { kind := .int
    name := "Int"
    types := [.argument]
    label := some "Integer"
    description := some "A numeric value"
    intDefault := some 48
    intMin := some 8
    intMax := some 128 }

/-- The `Color` class with its static `default`. -/
def ColorC : ArgClass :=
  { kind := .color
    name := "Color"
    types := [.argument]
    label := some "Color"
    description := some "A color value"
    colorDefault := some "#000000" }

/-- Modelled from the spec: the `Palette` class (`PaletteArgument`).  Its
definition is missing from `src/` (only imported by `superset.ts` and
re-exported by the library index); per the spec it is a specialized Argument
keeping the Generic kind, carrying a scheme name plus a resolved list of
colors. -/
def PaletteC : ArgClass :=
  { kind := .palette
    name := "Palette"
    types := [.argument]
    label := some "Color Scheme"
    description := none }

/-- Modelled from the spec: `DEFAULT_PALETTE`, the built-in fallback list of
palette colors used when no color-scheme lookup is injected.  Its definition
is missing from `src/`; no claim inspects its elements, so it is modelled as
an unspecified concrete list. -/
def DEFAULT_PALETTE : List String := []

/-- Options accepted by `Int.with` (`IntOptions` in `src/lib/types.ts`). -/
structure IntOptions where
  label : Option String := none
  description : Option String := none
  default : Option Int := none
  min : Option Int := none
  max : Option Int := none
deriving DecidableEq, Repr

/-- Options accepted by `Color.with` (`ColorOptions`). -/
structure ColorOptions where
  label : Option String := none
  description : Option String := none
  default : Option String := none
deriving DecidableEq, Repr

/-- Options accepted by `Dimension.with` and `Temporal.with`. -/
structure LabelOptions where
  label : Option String := none
  description : Option String := none
deriving DecidableEq, Repr

/-- JS `a ?? b` on an optional static field: the subclass declares the
option when supplied, otherwise it inherits the base class's value. -/
def inheritOpt {α : Type} (o : Option α) (base : Option α) : Option α :=
  match o with
  | some v => some v
  | none => base

/-- `Int.with(options)` (`src/lib/types.ts` lines 152–161): returns a fresh
anonymous subclass of `Base` whose statics are `options.x ?? Base.x`. -/
def IntC.withOptions (Base : ArgClass) (options : IntOptions) : ArgClass :=
  { kind := Base.kind
    name := ""
    types := Base.types
    label := inheritOpt options.label Base.label
    description := inheritOpt options.description Base.description
    intDefault := inheritOpt options.default Base.intDefault
    intMin := inheritOpt options.min Base.intMin
    intMax := inheritOpt options.max Base.intMax
    colorDefault := Base.colorDefault }

/-- `Color.with(options)` (`src/lib/types.ts` lines 188–195). -/
def ColorC.withOptions (Base : ArgClass) (options : ColorOptions) : ArgClass :=
  { kind := Base.kind
    name := ""
    types := Base.types
    label := inheritOpt options.label Base.label
    description := inheritOpt options.description Base.description
    intDefault := Base.intDefault
    intMin := Base.intMin
    intMax := Base.intMax
    colorDefault := inheritOpt options.default Base.colorDefault }

/-- `Dimension.with(options)`. -/
def DimensionC.withOptions (Base : ArgClass) (options : LabelOptions) : ArgClass :=
  { Base with
    name := ""
    label := inheritOpt options.label Base.label
    description := inheritOpt options.description Base.description }

/-- `Temporal.with(options)`. -/
def TemporalC.withOptions (Base : ArgClass) (options : LabelOptions) : ArgClass :=
  { Base with
    name := ""
    label := inheritOpt options.label Base.label
    description := inheritOpt options.description Base.description }

/-! ### Color conversion (`src/lib/interfaces/superset.ts` lines 122–151) -/

/-- The RGBA record used by Superset's `ColorPickerControl`.  The claims only
exercise integer components, which is also all that `hexToRgba` produces, so
the components are modelled as naturals. -/
structure RgbaColor where
  r : Nat
  g : Nat
  b : Nat
  a : Nat
deriving DecidableEq, Repr

/-- One character of the regex character class `[a-f\d]` with the `i` flag,
expressed on code points: a decimal digit, `a`–`f`, or `A`–`F`. -/
def isHexDigitChar (c : Char) : Bool :=
  (48 ≤ c.toNat && c.toNat ≤ 57) ||
  (97 ≤ c.toNat && c.toNat ≤ 102) ||
  (65 ≤ c.toNat && c.toNat ≤ 70)

/-- Numeric value of a hex digit, as `parseInt(-, 16)` assigns it
(`0` for characters outside the class; that branch is never reached by
`hexToRgba`, which tests the class first). -/
def hexDigitVal (c : Char) : Nat :=
  if 48 ≤ c.toNat && c.toNat ≤ 57 then c.toNat - 48
  else if 97 ≤ c.toNat && c.toNat ≤ 102 then c.toNat - 97 + 10
  else if 65 ≤ c.toNat && c.toNat ≤ 70 then c.toNat - 65 + 10
  else 0

/-- The characters matched against the groups of
`/^#?([a-f\d]{2})([a-f\d]{2})([a-f\d]{2})$/i`: an optional leading `#` is
dropped and the rest of the string must supply the six digits. -/
def hexBody (s : String) : List Char :=
  match s.data with
  | '#' :: rest => rest
  | cs => cs

/-- `hexToRgba` (`superset.ts` lines 132–143): decode a 6-hex-digit color
(optionally `#`-prefixed, case-insensitive) to an RGBA record with alpha 1;
any non-matching string decodes to opaque black. -/
def hexToRgba (hex : String) : RgbaColor :=
  match hexBody hex with
  | [c1, c2, c3, c4, c5, c6] =>
    if isHexDigitChar c1 && isHexDigitChar c2 && isHexDigitChar c3 &&
       isHexDigitChar c4 && isHexDigitChar c5 && isHexDigitChar c6 then
      { r := hexDigitVal c1 * 16 + hexDigitVal c2
        g := hexDigitVal c3 * 16 + hexDigitVal c4
        b := hexDigitVal c5 * 16 + hexDigitVal c6
        a := 1 }
    else { r := 0, g := 0, b := 0, a := 1 }
  | _ => { r := 0, g := 0, b := 0, a := 1 }

/-- Whether a string matches the pattern of `hexToRgba`
(`/^#?([a-f\d]{2})([a-f\d]{2})([a-f\d]{2})$/i`). -/
def isHexColorMatch (hex : String) : Bool :=
  match hexBody hex with
  | [c1, c2, c3, c4, c5, c6] =>
    isHexDigitChar c1 && isHexDigitChar c2 && isHexDigitChar c3 &&
    isHexDigitChar c4 && isHexDigitChar c5 && isHexDigitChar c6
  | _ => false

/-- JS `n.toString(16)` for a natural number: lowercase hex digits, most
significant first.  Structural recursion on a fuel argument large enough to
cover every digit of `n`. -/
def natToHexCharsAux : Nat → Nat → List Char
  | 0, _ => []
  | fuel + 1, n =>
    if n < 16 then [Nat.digitChar n]
    else natToHexCharsAux fuel (n / 16) ++ [Nat.digitChar (n % 16)]

/-- JS `n.toString(16)`. -/
def natToHexChars (n : Nat) : List Char :=
  natToHexCharsAux (n + 1) n

/-- The `toHex` helper of `rgbaToHex`: `n.toString(16).padStart(2, '0')`. -/
def toHexPad2 (n : Nat) : List Char :=
  let ds := natToHexChars n
  List.replicate (2 - ds.length) '0' ++ ds

/-- `rgbaToHex` (`superset.ts` lines 148–151): `#` followed by the padded hex
encodings of the `r`, `g`, `b` components (alpha is dropped). -/
def rgbaToHex (rgba : RgbaColor) : String :=
  ⟨'#' :: (toHexPad2 rgba.r ++ toHexPad2 rgba.g ++ toHexPad2 rgba.b)⟩

/-! ### Association-list models of JS `Map` and object access -/

/-- Lookup in an association list (first match), modelling both
`Map.get` and property access on a JS object. -/
def alGet {α : Type} : List (String × α) → String → Option α
  | [], _ => none
  | (k, v) :: rest, key => if k = key then some v else alGet rest key

/-- `Map.set` / JS property assignment: overwrite in place when the key is
present, append otherwise. -/
def alSet {α : Type} : List (String × α) → String → α → List (String × α)
  | [], key, v => [(key, v)]
  | (k, v') :: rest, key, v =>
    if k = key then (key, v) :: rest else (k, v') :: alSet rest key v

/-! ### The parameter classifier (`src/lib/createChart.tsx`) -/

/-- JS `String.prototype.toLowerCase` restricted to the ASCII identifiers
used as parameter and class names. -/
def jsToLower (s : String) : String :=
  ⟨s.data.map Char.toLower⟩

/-- JS `String.prototype.includes`: substring test. -/
def jsIncludes (s sub : String) : Bool :=
  go s.data sub.data
where
  go : List Char → List Char → Bool
    | hay, needle =>
      if List.isPrefixOf needle hay then true
      else
        match hay with
        | [] => false
        | _ :: rest => go rest needle

/-- A reflected reference to a JS class (`classRef.reflectedClass?.class`):
its `.name`, and the Argument class it denotes when it is `Argument` itself
or a subclass of `Argument` on the prototype chain (`none` for classes
outside the hierarchy). -/
structure RClass where
  name : String
  arg : Option ArgClass
deriving DecidableEq, Repr

/-- One member of a reflected parameter type as `extractArgumentsFromMetadata`
examines it: whether `type.is('class')` holds, the class reference when it
does (which RTTI may fail to resolve, hence `Option`), and whatever the
untyped read `(type as unknown as { name?: string }).name` yields. -/
structure RTypeAtom where
  isClass : Bool
  cls : Option RClass := none
  tname : Option String := none
deriving DecidableEq, Repr

/-- A reflected parameter type: either a single type or a union, which the
classifier unwraps one level (`paramType.is('union') ? paramType.types :
[paramType]`). -/
inductive RType where
  | atom : RTypeAtom → RType
  | union : List RTypeAtom → RType
deriving DecidableEq, Repr

/-- A reflected parameter: its name and declared type. -/
structure RParam where
  name : String
  type : RType
deriving DecidableEq, Repr

/-- The member list the classifier iterates over for a parameter type. -/
def RType.atoms : RType → List RTypeAtom
  | .atom a => [a]
  | .union ms => ms

/-- The `ArgumentClassRegistry` populated at module load
(`createChart.tsx` lines 39–45), in insertion order. -/
def builtinRegistry : List (String × ArgClass) :=
  [("Metric", MetricC), ("Dimension", DimensionC), ("Int", IntC),
   ("Color", ColorC), ("Argument", ArgumentC)]

/-- The body of the `for (const type of types)` loop for one member type:
tier 1 (the declared class is `Argument` or a subclass — used verbatim),
tier 2 (registry lookup by the class's `.name`, then by the RTTI type name).
Returns the class that made the loop `break`, if any. -/
def classifyAtom (registry : List (String × ArgClass)) (a : RTypeAtom) :
    Option ArgClass :=
  let classHit : Option ArgClass :=
    if a.isClass then
      match a.cls with
      | some c =>
        match c.arg with
        | some cls => some cls
        | none =>
          if c.name ≠ "" then
            match alGet registry c.name with
            | some registered => some registered
            | none => none
          else none
      | none => none
    else none
  match classHit with
  | some cls => some cls
  | none =>
    match a.tname with
    | some tn =>
      if tn ≠ "" then alGet registry tn else none
    | none => none

/-- The full `for (const type of types)` loop: first member that resolves
wins. -/
def classifyTypes (registry : List (String × ArgClass)) :
    List RTypeAtom → Option ArgClass
  | [] => none
  | a :: rest =>
    match classifyAtom registry a with
    | some cls => some cls
    | none => classifyTypes registry rest

/-- Tier 4 (`createChart.tsx` lines 119–129): test the lowercased parameter
name against every registered class name as a substring, in registry
iteration order. -/
def findSubstringClass (registry : List (String × ArgClass))
    (paramName : String) : Option ArgClass :=
  match registry with
  | [] => none
  | (className, argClass) :: rest =>
    if jsIncludes (jsToLower paramName) (jsToLower className) then some argClass
    else findSubstringClass rest paramName

/-- Tier 5 (`createChart.tsx` lines 131–148): fixed keyword patterns on the
lowercased parameter name.  Size/width/height/font patterns map to `Int`;
color/colour/fill/stroke patterns map to `Color`.  (This is the whole tier:
the source has no temporal, metric or dimension keyword group.) -/
def keywordPatternClass (paramName : String) : Option ArgClass :=
  let paramLower := jsToLower paramName
  if jsIncludes paramLower "size" || jsIncludes paramLower "width" ||
     jsIncludes paramLower "height" || jsIncludes paramLower "font" then
    some IntC
  else if jsIncludes paramLower "color" || jsIncludes paramLower "colour" ||
          jsIncludes paramLower "fill" || jsIncludes paramLower "stroke" then
    some ColorC
  else none

/-- Classification of a single parameter: declared-type tiers 1–3, then the
name-substring tier, then the keyword tier; `none` when every tier misses. -/
def classifyParam (registry : List (String × ArgClass)) (paramName : String)
    (ty : RType) : Option ArgClass :=
  match classifyTypes registry ty.atoms with
  | some cls => some cls
  | none =>
    match findSubstringClass registry paramName with
    | some cls => some cls
    | none => keywordPatternClass paramName

/-- One iteration of the loop over `reflected.parameterNames`: the parameter
named `dataFrame` is skipped; every other name is pushed onto `names` and,
when a tier resolves it, `Map.set` into the argument map. -/
def extractStep (registry : List (String × ArgClass))
    (acc : List String × List (String × ArgClass)) (p : RParam) :
    List String × List (String × ArgClass) :=
  if p.name = "dataFrame" then acc
  else
    let names := acc.1 ++ [p.name]
    match classifyParam registry p.name p.type with
    | some cls => (names, alSet acc.2 p.name cls)
    | none => (names, acc.2)

/-- `extractArgumentsFromMetadata` (`createChart.tsx` lines 58–155) on a
successfully reflected parameter list: the ordered parameter names (without
`dataFrame`) and the classified argument map in insertion order.  (When
reflection throws, the source returns the empty result; that path adds
nothing the claims exercise.) -/
def extractArgumentsFromMetadata (registry : List (String × ArgClass))
    (params : List RParam) : List String × List (String × ArgClass) :=
  params.foldl (extractStep registry) ([], [])

/-- The explicit-override merge of `createChart` (lines 192–197): entries of
`options.arguments` are `Map.set` over the reflective result. -/
def mergeOverrides (extracted : List (String × ArgClass))
    (overrides : List (String × ArgClass)) : List (String × ArgClass) :=
  overrides.foldl (fun acc e => alSet acc e.1 e.2) extracted

/-! ### Control-panel generation (`src/lib/interfaces/superset.ts`) -/

/-- `COLUMN_TYPE_TO_CONTROL` (`superset.ts` lines 156–161). -/
def COLUMN_TYPE_TO_CONTROL : ColumnType → String
  | .metric => "metric"
  | .dimension => "groupby"
  | .temporal => "granularity_sqla"
  | .argument => "TextControl"

/-- `getControlForArgument` (`superset.ts` lines 167–183): the `instanceof`
special cases for `Int`, `Color` and `Palette`, then the first entry of the
class's static `types`. -/
def getControlForArgument (argClass : ArgClass) : String :=
  if argClass.kind = .int then "SliderControl"
  else if argClass.kind = .color then "ColorPickerControl"
  else if argClass.kind = .palette then "color_scheme"
  else
    match argClass.types with
    | [] => "TextControl"
    | firstType :: _ => COLUMN_TYPE_TO_CONTROL firstType

/-- JS `a || b` where `a` is an optional string and the empty string is
falsy. -/
def orFalsy (v : Option String) (fallback : String) : String :=
  match v with
  | some s => if s = "" then fallback else s
  | none => fallback

/-- The kind-specific configuration emitted by `getControlConfig`
(`superset.ts` lines 188–235). -/
inductive ControlConfig where
  | slider (label description : String) (defaultV minV maxV : Int)
      (step : Nat) (renderTrigger : Bool)
  | colorPicker (label description : String) (defaultV : RgbaColor)
      (renderTrigger : Bool)
  | colorScheme (label description : String) (renderTrigger : Bool)
  | text (label description : String) (renderTrigger : Bool)
deriving DecidableEq, Repr

/-- `getControlConfig`: `label = argClass.label || paramName`,
`description = argClass.description || ''`, then the per-kind shape with the
`?? 32 / ?? 8 / ?? 128 / ?? '#000000'` fallbacks of the source. -/
def getControlConfig (argClass : ArgClass) (paramName : String) :
    ControlConfig :=
  let label := orFalsy argClass.label paramName
  let description := orFalsy argClass.description ""
  if argClass.kind = .int then
    .slider label description (argClass.intDefault.getD 32)
      (argClass.intMin.getD 8) (argClass.intMax.getD 128) 1 true
  else if argClass.kind = .color then
    .colorPicker label description
      (hexToRgba (argClass.colorDefault.getD "#000000")) true
  else if argClass.kind = .palette then
    .colorScheme label description true
  else
    .text label description true

/-- One control of a `controlSetRows` row: either a well-known Superset
control name or a `{ name, config }` record. -/
inductive Control where
  | builtin (name : String)
  | custom (name : String) (config : ControlConfig)
deriving DecidableEq, Repr

/-- A row of controls. -/
abbrev ControlRow := List Control

/-- One section of `controlPanelSections`. -/
structure PanelSection where
  label : String
  expanded : Bool
  controlSetRows : List ControlRow
deriving DecidableEq, Repr

/-- The loop state of `generateControlPanel`: the accumulated Query rows,
Customize rows, and the `hasTemporalArg` flag. -/
structure PanelAcc where
  queryControls : List ControlRow
  customizeControls : List ControlRow
  hasTemporalArg : Bool
deriving DecidableEq, Repr

/-- One iteration of the `for (const [paramName, argClass] of args)` loop of
`generateControlPanel` (`superset.ts` lines 269–288). -/
def panelStep (acc : PanelAcc) (entry : String × ArgClass) : PanelAcc :=
  let paramName := entry.1
  let argClass := entry.2
  let control := getControlForArgument argClass
  if control = "metric" || control = "groupby" then
    { acc with queryControls := acc.queryControls ++ [[.builtin control]] }
  else if control = "granularity_sqla" then
    { acc with hasTemporalArg := true }
  else if control = "color_scheme" then
    { acc with customizeControls :=
        acc.customizeControls ++ [[.builtin "color_scheme"]] }
  else
    { acc with customizeControls := acc.customizeControls ++
        [[.custom paramName (getControlConfig argClass paramName)]] }

/-- `generateControlPanel` (`superset.ts` lines 263–331), taking the chart's
argument map in insertion order and producing `controlPanelSections`.  When a
Temporal argument was seen, `['x_axis']` and `['time_grain_sqla']` are
unshifted onto the Query rows; `['adhoc_filters']` is pushed last; the
Customize section exists only when it has rows.  (The constant
`controlOverrides` record and the `formDataOverrides` closure the source also
returns carry no claim-relevant data and are not modelled.) -/
def generateControlPanel (args : List (String × ArgClass)) :
    List PanelSection :=
  let acc := args.foldl panelStep ⟨[], [], false⟩
  let queryControls :=
    if acc.hasTemporalArg then
      [Control.builtin "x_axis"] :: [Control.builtin "time_grain_sqla"] ::
        acc.queryControls
    else acc.queryControls
  let queryControls := queryControls ++ [[Control.builtin "adhoc_filters"]]
  ⟨"Query", true, queryControls⟩ ::
    (if acc.customizeControls.isEmpty then []
     else [⟨"Customize", true, acc.customizeControls⟩])

/-! ### Prop transformation (`src/lib/interfaces/superset.ts` lines 336–434) -/

/-- A query-result row: a JS row object as an association list of its own
enumerable keys, in insertion order.  Cell values are opaque to the
transformer. -/
abbrev DataRow (α : Type) := List (String × α)

/-- JS `Object.keys` on a row object: its keys in insertion order.  A JS
object cannot hold a key twice, so for association lists arising from rows
this is exactly the first-component list. -/
def rowKeys {α : Type} (row : DataRow α) : List String :=
  row.map Prod.fst

/-- The row-to-column pivot of `generateTransformProps` (`superset.ts` lines
347–353): for each key of the first row, the per-row lookups of that key, in
row order (`columns[key] = data.map(row => row[key])`); no first row, no
columns. -/
def pivotColumns {α : Type} (data : List (DataRow α)) :
    List (String × List (Option α)) :=
  match data with
  | [] => []
  | firstRow :: _ =>
    (rowKeys firstRow).map (fun key => (key, data.map (fun row => alGet row key)))

/-- A value stored under a dynamic key of the form-data bag (the keys the
styling and generic branches read via `formData[name]`). -/
inductive FormValue where
  | str (s : String)
  | num (n : Int)
  | rgba (c : RgbaColor)
deriving DecidableEq, Repr

/-- A value of the `metric` field or a `metrics` element:
`string | { label: string }`. -/
inductive MetricField where
  | str (s : String)
  | obj (label : String)
deriving DecidableEq, Repr

/-- JS truthiness of a `metric` value: the empty string is the only falsy
inhabitant; objects are always truthy. -/
def metricFieldTruthy : MetricField → Bool
  | .str s => s ≠ ""
  | .obj _ => true

/-- The `QueryFormData` bag (`superset.ts` lines 11–17 and the keys the
transform reads): the typed fields, with the open `[key: string]: unknown`
rest modelled as the `extra` association list. -/
structure QueryFormData where
  metric : Option MetricField := none
  metrics : Option (List MetricField) := none
  groupby : Option (List String) := none
  columns : Option (List String) := none
  xAxis : Option String := none
  x_axis : Option String := none
  granularity_sqla : Option String := none
  color_scheme : Option String := none
  colorScheme : Option String := none
  extra : List (String × FormValue) := []

/-- The color fields of a `GlyphTheme` (`src/lib/types.ts`). -/
structure GlyphThemeColors where
  text : String
  background : String
  border : String
  gridLine : String
deriving DecidableEq, Repr

/-- `GlyphTheme`. -/
structure GlyphTheme where
  colors : GlyphThemeColors
  fontFamily : String
deriving DecidableEq, Repr

/-- `defaultTheme` (`src/lib/types.ts` lines 20–28). -/
def defaultTheme : GlyphTheme :=
  ⟨⟨"#333333", "#ffffff", "#cccccc", "#e0e0e0"⟩,
    "system-ui, -apple-system, sans-serif"⟩

/-- `SupersetTheme` (`superset.ts` lines 22–29): every field optional. -/
structure SupersetTheme where
  colorText : Option String := none
  colorTextTertiary : Option String := none
  colorBgContainer : Option String := none
  colorBorder : Option String := none
  colorBorderSecondary : Option String := none
  fontFamily : Option String := none
deriving DecidableEq, Repr

/-- `convertTheme` (`superset.ts` lines 72–85). -/
def convertTheme : Option SupersetTheme → GlyphTheme
  | none => defaultTheme
  | some t =>
    ⟨⟨orFalsy t.colorText defaultTheme.colors.text,
      orFalsy t.colorBgContainer defaultTheme.colors.background,
      orFalsy t.colorBorder defaultTheme.colors.border,
      orFalsy t.colorBorderSecondary defaultTheme.colors.gridLine⟩,
      orFalsy t.fontFamily defaultTheme.fontFamily⟩

/-- Which of the two optional Superset hook functions are present (the hook
values themselves are functions and carry no claim-relevant data). -/
structure HooksPresence where
  setControlValue : Bool := false
  onAddFilter : Bool := false
deriving DecidableEq, Repr

/-- One datasource column record as the transform forwards it
(`superset.ts` lines 369–373). -/
structure DatasourceColumn where
  name : String
  type : Option String := none
  is_dttm : Option Bool := none
deriving DecidableEq, Repr

/-- `SupersetColumn` (`superset.ts` lines 34–41), the fields the transform
reads. -/
structure SupersetColumn where
  column_name : String
  type : Option String := none
  is_dttm : Option Bool := none
deriving DecidableEq, Repr

/-- `SupersetDatasource` (the `metrics` field is never read by the
transform). -/
structure SupersetDatasource where
  columns : Option (List SupersetColumn) := none

/-- `SupersetChartProps` (`superset.ts` lines 59–67): the cell type of query
rows is a parameter since the transform never inspects cell values. -/
structure SupersetChartProps (α : Type) where
  width : Int
  height : Int
  formData : QueryFormData
  queriesData : List (List (DataRow α))
  theme : Option SupersetTheme := none
  hooks : Option HooksPresence := none
  datasource : Option SupersetDatasource := none

/-- A constructed Argument instance: `plain` for the classes whose
constructor is `Argument`'s (Metric, Dimension, Temporal, Color and their
derivatives), `ofInt` for `Int`-derived classes (which also parse a
`numericValue`), `ofPalette` for the two-argument Palette constructor
(modelled from the spec, the class being missing from `src/`). -/
inductive ArgInstance where
  | plain (cls : ArgClass) (value : String)
  | ofInt (cls : ArgClass) (value : String) (numericValue : Int)
  | ofPalette (cls : ArgClass) (value : String) (colors : List String)
deriving DecidableEq, Repr

/-- The constructor argument of `new argClass(value)` where the source
passes `string | number`. -/
inductive CtorArg where
  | str (s : String)
  | num (n : Int)
deriving DecidableEq, Repr

/-- JS `String(value)` on a constructor argument. -/
def ctorArgString : CtorArg → String
  | .str s => s
  | .num n => toString n

/-- JS `parseInt(s, 10) || 0`: optional whitespace and sign, then the
leading run of decimal digits; no digits parses to `NaN`, which the `|| 0`
turns into `0` (as it does a parsed `0` itself). -/
def jsParseIntOr0 (s : String) : Int :=
  let cs := s.data.dropWhile Char.isWhitespace
  let signAndRest : Int × List Char :=
    match cs with
    | '-' :: r => (-1, r)
    | '+' :: r => (1, r)
    | r => (1, r)
  let digits := signAndRest.2.takeWhile Char.isDigit
  signAndRest.1 *
    (digits.foldl (fun acc c => acc * 10 + (c.toNat - 48)) 0 : Nat)

/-- `new argClass(value)` for a single-argument construction: `Int`-derived
classes run the `Int` constructor (`src/lib/types.ts` lines 138–143), every
other class runs `Argument`'s. -/
def newInstance (cls : ArgClass) (v : CtorArg) : ArgInstance :=
  if cls.kind = .int then
    match v with
    | .str s => .ofInt cls s (jsParseIntOr0 s)
    | .num n => .ofInt cls (toString n) n
  else .plain cls (ctorArgString v)

/-- The metric-branch label resolution (`superset.ts` lines 382–386):
`formData.metric || (formData.metrics && formData.metrics[0])`, then a bare
string is used as is, an object contributes `label || 'value'`, and an
absent value yields `'value'`. -/
def transformMetricLabel (fd : QueryFormData) : String :=
  let metricValue : Option MetricField :=
    match fd.metric with
    | some m =>
      if metricFieldTruthy m then some m
      else
        match fd.metrics with
        | some ms => ms.head?
        | none => none
    | none =>
      match fd.metrics with
      | some ms => ms.head?
      | none => none
  match metricValue with
  | some (.str s) => s
  | some (.obj label) => if label = "" then "value" else label
  | none => "value"

/-- A concrete query-result cell value (`Record<string, unknown>` entries);
the transform never inspects cells, so three representative shapes
suffice. -/
inductive Cell where
  | num (n : Int)
  | str (s : String)
  | null
deriving DecidableEq, Repr

/-- A value of the returned props bag. -/
inductive PropValue where
  | table (cols : List (String × List (Option Cell)))
  | themeV (t : GlyphTheme)
  | numV (n : Int)
  | hooksV (h : HooksPresence)
  | colsV (cols : Option (List DatasourceColumn))
  | argV (a : ArgInstance)
deriving DecidableEq, Repr

/-- One iteration of the `for (const [name, argClass] of args)` loop of the
transform (`superset.ts` lines 378–430), dispatching on
`getControlForArgument`. -/
def transformStep (fd : QueryFormData)
    (getColorSchemeColors : Option (String → List String))
    (props : List (String × PropValue)) (entry : String × ArgClass) :
    List (String × PropValue) :=
  let name := entry.1
  let argClass := entry.2
  let control := getControlForArgument argClass
  if control = "metric" then
    alSet props name (.argV (newInstance argClass (.str (transformMetricLabel fd))))
  else if control = "groupby" then
    let groupby : List String :=
      match fd.groupby with
      | some g => g
      | none =>
        match fd.columns with
        | some c => c
        | none => []
    alSet props name (.argV (newInstance argClass (.str (groupby.headD ""))))
  else if control = "granularity_sqla" then
    let timeColumn :=
      orFalsy fd.xAxis (orFalsy fd.x_axis
        (orFalsy fd.granularity_sqla "__timestamp"))
    alSet props name (.argV (newInstance argClass (.str timeColumn)))
  else if control = "SliderControl" then
    let value : CtorArg :=
      match alGet fd.extra name with
      | some (.num n) => .num n
      | some (.str s) => .str s
      | some (.rgba _) => .str "[object Object]"
      | none =>
        match argClass.intDefault with
        | some d => .num d
        | none => .num 32
    alSet props name (.argV (newInstance argClass value))
  else if control = "ColorPickerControl" then
    let colorValue : String :=
      match alGet fd.extra name with
      | some (.rgba c) => rgbaToHex c
      | some (.str s) => s
      | some (.num _) => "#000000"
      | none => rgbaToHex (hexToRgba (argClass.colorDefault.getD "#000000"))
    alSet props name (.argV (newInstance argClass (.str colorValue)))
  else if control = "color_scheme" then
    let schemeName := orFalsy fd.color_scheme (orFalsy fd.colorScheme "supersetColors")
    let schemeColors :=
      match getColorSchemeColors with
      | some f => f schemeName
      | none => DEFAULT_PALETTE
    alSet props name (.argV (.ofPalette argClass schemeName schemeColors))
  else
    match alGet fd.extra name with
    | some v =>
      let s :=
        match v with
        | .str s => s
        | .num n => toString n
        | .rgba _ => "[object Object]"
      alSet props name (.argV (newInstance argClass (.str s)))
    | none => props

/-- The body of the function returned by `generateTransformProps`
(`superset.ts` lines 342–433), over a chart's argument map: pivot the first
query's rows into columns, convert theme, hooks and datasource columns, then
add one props entry per classified argument. -/
def generateTransformProps (args : List (String × ArgClass))
    (getColorSchemeColors : Option (String → List String))
    (chartProps : SupersetChartProps Cell) : List (String × PropValue) :=
  let data := chartProps.queriesData.head?.getD []
  let dataFrame := pivotColumns data
  let theme := convertTheme chartProps.theme
  let hooks := chartProps.hooks.getD {}
  let datasourceColumns : Option (List DatasourceColumn) :=
    match chartProps.datasource with
    | some ds =>
      match ds.columns with
      | some cols =>
        some (cols.map (fun col => ⟨col.column_name, col.type, col.is_dttm⟩))
      | none => none
    | none => none
  let baseProps : List (String × PropValue) :=
    [("dataFrame", .table dataFrame), ("theme", .themeV theme),
     ("width", .numV chartProps.width), ("height", .numV chartProps.height),
     ("hooks", .hooksV hooks), ("datasourceColumns", .colsV datasourceColumns)]
  args.foldl (transformStep chartProps.formData getColorSchemeColors) baseProps

/-! ### Association-list lemmas -/

theorem alGet_alSet_eq {α : Type} (m : List (String × α)) (k : String) (v : α) :
    alGet (alSet m k v) k = some v := by
  induction m with
  | nil => simp [alSet, alGet]
  | cons e rest ih =>
    obtain ⟨k', v'⟩ := e
    by_cases h : k' = k
    · simp [alSet, alGet, h]
    · simp [alSet, alGet, h, ih]

theorem alGet_alSet_ne {α : Type} (m : List (String × α)) (k' k : String)
    (v : α) (h : k ≠ k') : alGet (alSet m k' v) k = alGet m k := by
  induction m with
  | nil => simp [alSet, alGet, Ne.symm h]
  | cons e rest ih =>
    obtain ⟨k0, v0⟩ := e
    by_cases h0 : k0 = k'
    · subst h0
      simp [alSet, alGet, Ne.symm h]
    · simp [alSet, alGet, h0, ih]

/-! ### Claim C3 — the `with(options)` inheritance law -/

/-- C3: for the styling Argument subclasses `Int` and `Color`, every
configurable static field of the class returned by `with(options)` equals the
supplied option when one is given and the base class's existing value
otherwise (stated over an arbitrary base class, covering `with` called on
derived classes too).  The claim's non-mutation half — `with` leaves the base
class itself untouched — holds by construction in this embedding: `withOptions`
builds a new `ArgClass` value and `Base` is immutable. -/
theorem claim_C3_withOptions_inheritance (B : ArgClass) (o : IntOptions)
    (oc : ColorOptions) :
    (∀ l, o.label = some l → (IntC.withOptions B o).label = some l) ∧
    (o.label = none → (IntC.withOptions B o).label = B.label) ∧
    (∀ d, o.description = some d → (IntC.withOptions B o).description = some d) ∧
    (o.description = none → (IntC.withOptions B o).description = B.description) ∧
    (∀ n, o.default = some n → (IntC.withOptions B o).intDefault = some n) ∧
    (o.default = none → (IntC.withOptions B o).intDefault = B.intDefault) ∧
    (∀ n, o.min = some n → (IntC.withOptions B o).intMin = some n) ∧
    (o.min = none → (IntC.withOptions B o).intMin = B.intMin) ∧
    (∀ n, o.max = some n → (IntC.withOptions B o).intMax = some n) ∧
    (o.max = none → (IntC.withOptions B o).intMax = B.intMax) ∧
    (∀ l, oc.label = some l → (ColorC.withOptions B oc).label = some l) ∧
    (oc.label = none → (ColorC.withOptions B oc).label = B.label) ∧
    (∀ d, oc.description = some d → (ColorC.withOptions B oc).description = some d) ∧
    (oc.description = none → (ColorC.withOptions B oc).description = B.description) ∧
    (∀ s, oc.default = some s → (ColorC.withOptions B oc).colorDefault = some s) ∧
    (oc.default = none → (ColorC.withOptions B oc).colorDefault = B.colorDefault) := by
  refine ⟨?_, ?_, ?_, ?_, ?_, ?_, ?_, ?_, ?_, ?_, ?_, ?_, ?_, ?_, ?_, ?_⟩ <;>
    first
      | (intro x h
         simp [IntC.withOptions, ColorC.withOptions, inheritOpt, h])
      | (intro h
         simp [IntC.withOptions, ColorC.withOptions, inheritOpt, h])

/-- Witness for C3 at the `FontSize` / `FontColor` examples of the source
comments: supplied options land verbatim, unset options inherit. -/
theorem claim_C3_witness :
    (IntC.withOptions IntC
      ⟨some "Font Size", none, none, some 12, some 200⟩).label = some "Font Size" ∧
    (IntC.withOptions IntC
      ⟨some "Font Size", none, none, some 12, some 200⟩).intDefault = IntC.intDefault ∧
    (IntC.withOptions IntC
      ⟨some "Font Size", none, none, some 12, some 200⟩).intMin = some 12 ∧
    (ColorC.withOptions ColorC
      ⟨some "Font Color", none, some "#1f77b4"⟩).colorDefault = some "#1f77b4" ∧
    (ColorC.withOptions ColorC
      ⟨some "Font Color", none, some "#1f77b4"⟩).description = ColorC.description := by
  have hI := claim_C3_withOptions_inheritance IntC
    ⟨some "Font Size", none, none, some 12, some 200⟩
    ⟨some "Font Color", none, some "#1f77b4"⟩
  have hC := claim_C3_withOptions_inheritance ColorC
    ⟨some "Font Size", none, none, some 12, some 200⟩
    ⟨some "Font Color", none, some "#1f77b4"⟩
  exact ⟨hI.1 "Font Size" rfl,
    (hI.2.2.2.2.2.1) rfl,
    (hI.2.2.2.2.2.2.1) 12 rfl,
    (hC.2.2.2.2.2.2.2.2.2.2.2.2.2.2.1) "#1f77b4" rfl,
    (hC.2.2.2.2.2.2.2.2.2.2.2.2.2.1) rfl⟩

/-! ### Hex digit lemmas for the color round trips -/

/-- A lowercase well-formed hex digit: the character class `[0-9a-f]`. -/
def isLowerHexDigit (c : Char) : Bool :=
  (48 ≤ c.toNat && c.toNat ≤ 57) || (97 ≤ c.toNat && c.toNat ≤ 102)

theorem hexDigitVal_digitChar (d : Nat) (h : d < 16) :
    hexDigitVal (Nat.digitChar d) = d := by
  revert h
  revert d
  decide

theorem isHexDigitChar_digitChar (d : Nat) (h : d < 16) :
    isHexDigitChar (Nat.digitChar d) = true := by
  revert h
  revert d
  decide

theorem isLowerHexDigit_digitChar (d : Nat) (h : d < 16) :
    isLowerHexDigit (Nat.digitChar d) = true := by
  revert h
  revert d
  decide

theorem isHexDigitChar_of_lower (c : Char) (h : isLowerHexDigit c = true) :
    isHexDigitChar c = true := by
  simp only [isLowerHexDigit, Bool.or_eq_true, Bool.and_eq_true,
    decide_eq_true_eq] at h
  simp only [isHexDigitChar, Bool.or_eq_true, Bool.and_eq_true,
    decide_eq_true_eq]
  omega

theorem hexDigitVal_lt_16 (c : Char) (h : isHexDigitChar c = true) :
    hexDigitVal c < 16 := by
  simp only [isHexDigitChar, Bool.or_eq_true, Bool.and_eq_true,
    decide_eq_true_eq] at h
  unfold hexDigitVal
  split_ifs with h1 h2 h3 <;>
    simp_all [Bool.and_eq_true, decide_eq_true_eq] <;> omega

theorem digitChar_hexDigitVal (c : Char) (h : isLowerHexDigit c = true) :
    Nat.digitChar (hexDigitVal c) = c := by
  have hb : (48 ≤ c.toNat ∧ c.toNat ≤ 57) ∨ (97 ≤ c.toNat ∧ c.toNat ≤ 102) := by
    simpa [isLowerHexDigit, Bool.or_eq_true, Bool.and_eq_true,
      decide_eq_true_eq] using h
  obtain ⟨n, hn, rfl⟩ :
      ∃ n, ((48 ≤ n ∧ n ≤ 57) ∨ (97 ≤ n ∧ n ≤ 102)) ∧ c = Char.ofNat n :=
    ⟨c.toNat, hb, (Char.ofNat_toNat c).symm⟩
  rcases hn with ⟨l, u⟩ | ⟨l, u⟩ <;> interval_cases n <;> decide

theorem natToHexCharsAux_small (fuel n : Nat) (h : n < 16) :
    natToHexCharsAux (fuel + 1) n = [Nat.digitChar n] := by
  simp [natToHexCharsAux, h]

theorem toHexPad2_eq (n : Nat) (h : n < 256) :
    toHexPad2 n = [Nat.digitChar (n / 16), Nat.digitChar (n % 16)] := by
  by_cases h16 : n < 16
  · have hd : n / 16 = 0 := Nat.div_eq_of_lt h16
    have hm : n % 16 = n := Nat.mod_eq_of_lt h16
    rw [toHexPad2, natToHexChars, natToHexCharsAux_small n n h16]
    simp [hd, hm, List.replicate]
    decide
  · obtain ⟨m, rfl⟩ : ∃ m, n = m + 1 := by
      cases n with
      | zero => omega
      | succ m => exact ⟨m, rfl⟩
    have hq : (m + 1) / 16 < 16 := by omega
    rw [toHexPad2, natToHexChars]
    rw [show natToHexCharsAux (m + 1 + 1) (m + 1) =
        natToHexCharsAux (m + 1) ((m + 1) / 16) ++ [Nat.digitChar ((m + 1) % 16)] by
      simp [natToHexCharsAux, h16]]
    have hm1 : 1 ≤ m := by omega
    obtain ⟨m', rfl⟩ : ∃ m', m = m' + 1 := ⟨m - 1, by omega⟩
    rw [natToHexCharsAux_small (m' + 1) _ hq]
    simp

/-! ### Claim C4 — color conversion round trips -/

/-- C4: for every RGBA record with integer components in `[0, 255]` and alpha
exactly 1, `hexToRgba (rgbaToHex c) = c`; and for every well-formed 6-digit
lowercase hex string with a leading `#`, `rgbaToHex (hexToRgba h) = h`. -/
theorem claim_C4_color_round_trips :
    (∀ c : RgbaColor, c.r ≤ 255 → c.g ≤ 255 → c.b ≤ 255 → c.a = 1 →
      hexToRgba (rgbaToHex c) = c) ∧
    (∀ c1 c2 c3 c4 c5 c6 : Char,
      isLowerHexDigit c1 = true → isLowerHexDigit c2 = true →
      isLowerHexDigit c3 = true → isLowerHexDigit c4 = true →
      isLowerHexDigit c5 = true → isLowerHexDigit c6 = true →
      rgbaToHex (hexToRgba ⟨['#', c1, c2, c3, c4, c5, c6]⟩) =
        ⟨['#', c1, c2, c3, c4, c5, c6]⟩) := by
  constructor
  · rintro ⟨r, g, b, a⟩ hr hg hb ha
    dsimp only at hr hg hb ha
    subst ha
    rw [rgbaToHex]
    simp only
    rw [toHexPad2_eq r (by omega), toHexPad2_eq g (by omega),
      toHexPad2_eq b (by omega)]
    have hlt : ∀ m : Nat, m ≤ 255 → m / 16 < 16 ∧ m % 16 < 16 := by
      intro m hm
      omega
    rw [hexToRgba]
    simp only [hexBody]
    simp only [List.cons_append, List.nil_append]
    rw [isHexDigitChar_digitChar _ (hlt r hr).1,
      isHexDigitChar_digitChar _ (hlt r hr).2,
      isHexDigitChar_digitChar _ (hlt g hg).1,
      isHexDigitChar_digitChar _ (hlt g hg).2,
      isHexDigitChar_digitChar _ (hlt b hb).1,
      isHexDigitChar_digitChar _ (hlt b hb).2]
    simp only [Bool.and_self, if_true]
    rw [hexDigitVal_digitChar _ (hlt r hr).1, hexDigitVal_digitChar _ (hlt r hr).2,
      hexDigitVal_digitChar _ (hlt g hg).1, hexDigitVal_digitChar _ (hlt g hg).2,
      hexDigitVal_digitChar _ (hlt b hb).1, hexDigitVal_digitChar _ (hlt b hb).2]
    simp only [RgbaColor.mk.injEq, and_true]
    omega
  · intro c1 c2 c3 c4 c5 c6 h1 h2 h3 h4 h5 h6
    rw [hexToRgba]
    simp only [hexBody]
    rw [isHexDigitChar_of_lower c1 h1, isHexDigitChar_of_lower c2 h2,
      isHexDigitChar_of_lower c3 h3, isHexDigitChar_of_lower c4 h4,
      isHexDigitChar_of_lower c5 h5, isHexDigitChar_of_lower c6 h6]
    simp only [Bool.and_self, if_true]
    have hv : ∀ c : Char, isLowerHexDigit c = true → hexDigitVal c < 16 :=
      fun c hc => hexDigitVal_lt_16 c (isHexDigitChar_of_lower c hc)
    rw [rgbaToHex]
    simp only
    rw [toHexPad2_eq _ (by have := hv c1 h1; have := hv c2 h2; omega),
      toHexPad2_eq _ (by have := hv c3 h3; have := hv c4 h4; omega),
      toHexPad2_eq _ (by have := hv c5 h5; have := hv c6 h6; omega)]
    have hdiv : ∀ x y : Nat, x < 16 → y < 16 → (x * 16 + y) / 16 = x ∧
        (x * 16 + y) % 16 = y := by
      intro x y hx hy
      omega
    rw [(hdiv _ _ (hv c1 h1) (hv c2 h2)).1, (hdiv _ _ (hv c1 h1) (hv c2 h2)).2,
      (hdiv _ _ (hv c3 h3) (hv c4 h4)).1, (hdiv _ _ (hv c3 h3) (hv c4 h4)).2,
      (hdiv _ _ (hv c5 h5) (hv c6 h6)).1, (hdiv _ _ (hv c5 h5) (hv c6 h6)).2]
    rw [digitChar_hexDigitVal c1 h1, digitChar_hexDigitVal c2 h2,
      digitChar_hexDigitVal c3 h3, digitChar_hexDigitVal c4 h4,
      digitChar_hexDigitVal c5 h5, digitChar_hexDigitVal c6 h6]
    rfl

/-- Witness for C4 at the `#1f77b4` color of the source examples. -/
theorem claim_C4_witness :
    hexToRgba (rgbaToHex ⟨31, 119, 180, 1⟩) = ⟨31, 119, 180, 1⟩ ∧
    rgbaToHex (hexToRgba ⟨['#', '1', 'f', '7', '7', 'b', '4']⟩) =
      ⟨['#', '1', 'f', '7', '7', 'b', '4']⟩ :=
  ⟨claim_C4_color_round_trips.1 ⟨31, 119, 180, 1⟩ (by decide) (by decide)
      (by decide) rfl,
    claim_C4_color_round_trips.2 '1' 'f' '7' '7' 'b' '4' (by decide) (by decide)
      (by decide) (by decide) (by decide) (by decide)⟩

/-! ### Claim C8 — malformed colors decode to opaque black -/

/-- C8: `hexToRgba` maps every string that does not match the 6-hex-digit
pattern (with optional leading `#`) to opaque black; in this total embedding
it in particular never throws, so the color branch of the prop transformer is
total on malformed form values. -/
theorem claim_C8_malformed_hex_black (s : String)
    (h : isHexColorMatch s = false) : hexToRgba s = ⟨0, 0, 0, 1⟩ := by
  rw [hexToRgba]
  rw [isHexColorMatch] at h
  split
  · rename_i c1 c2 c3 c4 c5 c6 heq
    rw [heq] at h
    have h' : (isHexDigitChar c1 && isHexDigitChar c2 && isHexDigitChar c3 &&
        isHexDigitChar c4 && isHexDigitChar c5 && isHexDigitChar c6) = false := h
    simp only [h', Bool.false_eq_true, if_false]
  · rfl

/-- Witness for C8 at a malformed input. -/
theorem claim_C8_witness :
    isHexColorMatch "not-a-color" = false ∧
    hexToRgba "not-a-color" = ⟨0, 0, 0, 1⟩ :=
  ⟨by decide, claim_C8_malformed_hex_black "not-a-color" (by decide)⟩

/-! ### Claims C1 and C2 — which parameters the classifier skips and how the
convention tiers classify -/

/-- The reflected signature of `renderBigNumber`
(`src/unnamed/part_004` lines 23–31): the data table followed by the five
fixed presentation parameters and a `Metric`-typed parameter.  The
non-Argument declared types (`Table`, `GlyphTheme`, `number`, `ChartHooks`,
the column array) resolve to classes or named types outside the Argument
hierarchy, or to nothing at all. -/
def renderBigNumberParams : List RParam :=
  [⟨"dataFrame", .atom ⟨true, some ⟨"Table", none⟩, some "Table"⟩⟩,
   ⟨"_theme", .union [⟨false, none, some "GlyphTheme"⟩, ⟨false, none, none⟩]⟩,
   ⟨"_width", .union [⟨false, none, none⟩, ⟨false, none, none⟩]⟩,
   ⟨"_height", .union [⟨false, none, none⟩, ⟨false, none, none⟩]⟩,
   ⟨"_hooks", .union [⟨false, none, some "ChartHooks"⟩, ⟨false, none, none⟩]⟩,
   ⟨"_datasourceColumns", .union [⟨false, none, none⟩, ⟨false, none, none⟩]⟩,
   ⟨"metric", .atom ⟨true, some ⟨"Metric", some MetricC⟩, some "Metric"⟩⟩]

theorem extractStep_dataFrame (registry : List (String × ArgClass))
    (acc : List String × List (String × ArgClass)) (p : RParam)
    (h1 : alGet acc.2 "dataFrame" = none) (h2 : "dataFrame" ∉ acc.1) :
    alGet (extractStep registry acc p).2 "dataFrame" = none ∧
    "dataFrame" ∉ (extractStep registry acc p).1 := by
  unfold extractStep
  by_cases hdf : p.name = "dataFrame"
  · simp only [hdf, if_true]
    exact ⟨h1, h2⟩
  · rw [if_neg hdf]
    cases hcl : classifyParam registry p.name p.type with
    | some cls =>
      simp only
      refine ⟨?_, ?_⟩
      · rw [alGet_alSet_ne _ _ _ _ (Ne.symm hdf)]
        exact h1
      · simp [List.mem_append, h2, Ne.symm hdf]
    | none =>
      simp only
      refine ⟨h1, ?_⟩
      simp [List.mem_append, h2, Ne.symm hdf]

theorem extract_loop_dataFrame (registry : List (String × ArgClass))
    (params : List RParam) (acc : List String × List (String × ArgClass))
    (h1 : alGet acc.2 "dataFrame" = none) (h2 : "dataFrame" ∉ acc.1) :
    alGet (params.foldl (extractStep registry) acc).2 "dataFrame" = none ∧
    "dataFrame" ∉ (params.foldl (extractStep registry) acc).1 := by
  induction params generalizing acc with
  | nil => exact ⟨h1, h2⟩
  | cons p rest ih =>
    simp only [List.foldl_cons]
    have hstep := extractStep_dataFrame registry acc p h1 h2
    exact ih (extractStep registry acc p) hstep.1 hstep.2

/-- C1 counterexample: on the reflected Big Number signature, the fixed
pixel-width parameter `_width` does reach the argument map — the keyword
tier classifies it as `Int` — contradicting the claim that the classifier
skips every fixed parameter at every tier. -/
theorem claim_C1_counterexample :
    alGet (extractArgumentsFromMetadata builtinRegistry
      renderBigNumberParams).2 "_width" = some IntC := by
  decide

/-- C1 amended: the classifier unconditionally skips only the parameter
named `dataFrame` — for every registry and every reflected signature it
appears in neither the name list nor the argument map.  The other fixed
parameters are run through the tiers like any parameter: on the Big Number
signature, `_theme`, `_hooks` and `_datasourceColumns` happen to match no
tier and are absent, while `_width` and `_height` match the keyword tier and
appear in the map as `Int`. -/
theorem claim_C1_amended :
    (∀ (registry : List (String × ArgClass)) (params : List RParam),
      alGet (extractArgumentsFromMetadata registry params).2 "dataFrame" = none ∧
      "dataFrame" ∉ (extractArgumentsFromMetadata registry params).1) ∧
    (extractArgumentsFromMetadata builtinRegistry renderBigNumberParams).2 =
      [("_width", IntC), ("_height", IntC), ("metric", MetricC)] ∧
    (extractArgumentsFromMetadata builtinRegistry renderBigNumberParams).1 =
      ["_theme", "_width", "_height", "_hooks", "_datasourceColumns", "metric"] := by
  refine ⟨?_, by decide, by decide⟩
  intro registry params
  exact extract_loop_dataFrame registry params ([], []) rfl (by simp)

/-- A parameter whose declared type reflection cannot resolve at all
(tiers 1–3 have nothing to work with). -/
def unresolvedParam (nm : String) : RParam :=
  ⟨nm, .atom ⟨false, none, none⟩⟩

/-- C2 counterexample: a parameter named `xAxis` with no resolvable declared
type is not classified at all under the built-in registry — the keyword tier
of the source has no temporal group and `Temporal` is not among the built-in
registrations — contradicting the claimed `Temporal` classification. -/
theorem claim_C2_counterexample :
    alGet (extractArgumentsFromMetadata builtinRegistry
      [unresolvedParam "xAxis"]).2 "xAxis" = none := by
  decide

/-- C2 amended: under the built-in registry, `xAxis` with an unresolvable
declared type matches no tier and is omitted from the map; `colorScheme` is
classified as `Color`, though by the name-substring registry tier (its name
contains the registered name `Color`), not the keyword tier; `fill` is
classified as `Color` by the keyword tier. -/
theorem claim_C2_amended :
    alGet (extractArgumentsFromMetadata builtinRegistry
      [unresolvedParam "xAxis"]).2 "xAxis" = none ∧
    alGet (extractArgumentsFromMetadata builtinRegistry
      [unresolvedParam "colorScheme"]).2 "colorScheme" = some ColorC ∧
    alGet (extractArgumentsFromMetadata builtinRegistry
      [unresolvedParam "fill"]).2 "fill" = some ColorC ∧
    findSubstringClass builtinRegistry "colorScheme" = some ColorC ∧
    findSubstringClass builtinRegistry "fill" = none ∧
    keywordPatternClass "fill" = some ColorC ∧
    keywordPatternClass "xAxis" = none ∧
    findSubstringClass builtinRegistry "xAxis" = none := by
  decide

/-! ### Claim C7 — direct-type tier precedence -/

theorem extract_loop_preserves (registry : List (String × ArgClass))
    (post : List RParam) (acc : List String × List (String × ArgClass))
    (nm : String) (hpost : nm ∉ post.map RParam.name) :
    alGet (post.foldl (extractStep registry) acc).2 nm = alGet acc.2 nm := by
  induction post generalizing acc with
  | nil => rfl
  | cons p rest ih =>
    simp only [List.map_cons, List.mem_cons] at hpost
    push_neg at hpost
    obtain ⟨hne, hrest⟩ := hpost
    simp only [List.foldl_cons]
    rw [ih _ hrest]
    unfold extractStep
    by_cases hdf : p.name = "dataFrame"
    · rw [if_pos hdf]
    · rw [if_neg hdf]
      cases hcl : classifyParam registry p.name p.type with
      | some cls =>
        simp only
        exact alGet_alSet_ne _ _ _ _ hne
      | none => rfl

/-- C7: a parameter whose declared type reflects to a class inside the
Argument hierarchy (the base class or any subclass via the prototype chain)
is mapped to exactly that class, for every registry — the direct-identity
tier fires before the registry tier ever gets consulted. -/
theorem claim_C7_direct_type_tier (registry : List (String × ArgClass))
    (pre post : List RParam) (nm : String) (c : RClass) (tn : Option String)
    (A : ArgClass) (hnm : nm ≠ "dataFrame") (harg : c.arg = some A)
    (hpost : nm ∉ post.map RParam.name) :
    alGet (extractArgumentsFromMetadata registry
      (pre ++ ⟨nm, .atom ⟨true, some c, tn⟩⟩ :: post)).2 nm = some A := by
  unfold extractArgumentsFromMetadata
  rw [show pre ++ (⟨nm, .atom ⟨true, some c, tn⟩⟩ : RParam) :: post =
    (pre ++ [⟨nm, .atom ⟨true, some c, tn⟩⟩]) ++ post by simp]
  rw [List.foldl_append]
  rw [extract_loop_preserves registry post _ nm hpost]
  rw [List.foldl_append]
  simp only [List.foldl_cons, List.foldl_nil]
  unfold extractStep
  rw [if_neg hnm]
  have hcl : classifyParam registry nm (.atom ⟨true, some c, tn⟩) = some A := by
    simp [classifyParam, classifyTypes, RType.atoms, classifyAtom, harg]
  rw [hcl]
  exact alGet_alSet_eq _ _ _

/-- Witness for C7: a `Metric`-typed parameter resolves to `Metric` even
under a registry that maps the name `Metric` to `Color`. -/
theorem claim_C7_witness :
    alGet (extractArgumentsFromMetadata [("Metric", ColorC)]
      [⟨"dataFrame", .atom ⟨true, some ⟨"Table", none⟩, some "Table"⟩⟩,
       ⟨"metric", .atom ⟨true, some ⟨"Metric", some MetricC⟩, some "Metric"⟩⟩,
       ⟨"other", .atom ⟨false, none, none⟩⟩]).2 "metric" = some MetricC :=
  claim_C7_direct_type_tier [("Metric", ColorC)]
    [⟨"dataFrame", .atom ⟨true, some ⟨"Table", none⟩, some "Table"⟩⟩]
    [⟨"other", .atom ⟨false, none, none⟩⟩] "metric" ⟨"Metric", some MetricC⟩
    (some "Metric") MetricC (by decide) rfl (by decide)

/-! ### Claims C5 and C6 — control-panel structure -/

/-- The Query-section rows contributed by the loop of
`generateControlPanel`: one `['metric']` or `['groupby']` row per data
argument, in argument order. -/
def dataControlRows (args : List (String × ArgClass)) : List ControlRow :=
  args.filterMap (fun e =>
    if getControlForArgument e.2 = "metric" ∨ getControlForArgument e.2 = "groupby" then
      some [Control.builtin (getControlForArgument e.2)]
    else none)

/-- The Customize-section rows contributed by the loop of
`generateControlPanel`. -/
def customizeControlRows (args : List (String × ArgClass)) : List ControlRow :=
  args.filterMap (fun e =>
    if getControlForArgument e.2 = "metric" ∨ getControlForArgument e.2 = "groupby" then none
    else if getControlForArgument e.2 = "granularity_sqla" then none
    else if getControlForArgument e.2 = "color_scheme" then
      some [Control.builtin "color_scheme"]
    else some [Control.custom e.1 (getControlConfig e.2 e.1)])

theorem filterMap_cons_append {α β : Type} (f : α → Option β) (a : α)
    (l : List α) :
    List.filterMap f (a :: l) = List.filterMap f [a] ++ List.filterMap f l := by
  cases h : f a <;> simp [List.filterMap_cons, h]

theorem panelStep_query (acc : PanelAcc) (e : String × ArgClass) :
    (panelStep acc e).queryControls = acc.queryControls ++ dataControlRows [e] := by
  unfold panelStep dataControlRows
  by_cases hm : getControlForArgument e.2 = "metric" <;>
    by_cases hg : getControlForArgument e.2 = "groupby" <;>
    by_cases ht : getControlForArgument e.2 = "granularity_sqla" <;>
    by_cases hc : getControlForArgument e.2 = "color_scheme" <;>
    simp [hm, hg, ht, hc, List.filterMap_cons]

theorem panelStep_customize (acc : PanelAcc) (e : String × ArgClass) :
    (panelStep acc e).customizeControls =
      acc.customizeControls ++ customizeControlRows [e] := by
  unfold panelStep customizeControlRows
  by_cases hm : getControlForArgument e.2 = "metric" <;>
    by_cases hg : getControlForArgument e.2 = "groupby" <;>
    by_cases ht : getControlForArgument e.2 = "granularity_sqla" <;>
    by_cases hc : getControlForArgument e.2 = "color_scheme" <;>
    simp [hm, hg, ht, hc, List.filterMap_cons]

theorem panelStep_temporal (acc : PanelAcc) (e : String × ArgClass) :
    (panelStep acc e).hasTemporalArg =
      (acc.hasTemporalArg || decide (getControlForArgument e.2 = "granularity_sqla")) := by
  unfold panelStep
  by_cases hm : getControlForArgument e.2 = "metric" <;>
    by_cases hg : getControlForArgument e.2 = "groupby" <;>
    by_cases ht : getControlForArgument e.2 = "granularity_sqla" <;>
    by_cases hc : getControlForArgument e.2 = "color_scheme" <;>
    simp [hm, hg, ht, hc]

theorem dataControlRows_cons (e : String × ArgClass)
    (rest : List (String × ArgClass)) :
    dataControlRows (e :: rest) = dataControlRows [e] ++ dataControlRows rest :=
  filterMap_cons_append _ e rest

theorem customizeControlRows_cons (e : String × ArgClass)
    (rest : List (String × ArgClass)) :
    customizeControlRows (e :: rest) =
      customizeControlRows [e] ++ customizeControlRows rest :=
  filterMap_cons_append _ e rest

theorem panel_foldl_query (args : List (String × ArgClass)) (acc : PanelAcc) :
    (args.foldl panelStep acc).queryControls =
      acc.queryControls ++ dataControlRows args := by
  induction args generalizing acc with
  | nil => simp [dataControlRows]
  | cons e rest ih =>
    rw [List.foldl_cons, ih (panelStep acc e), panelStep_query,
      List.append_assoc, ← dataControlRows_cons]

theorem panel_foldl_customize (args : List (String × ArgClass)) (acc : PanelAcc) :
    (args.foldl panelStep acc).customizeControls =
      acc.customizeControls ++ customizeControlRows args := by
  induction args generalizing acc with
  | nil => simp [customizeControlRows]
  | cons e rest ih =>
    rw [List.foldl_cons, ih (panelStep acc e), panelStep_customize,
      List.append_assoc, ← customizeControlRows_cons]

theorem panel_foldl_temporal (args : List (String × ArgClass)) (acc : PanelAcc) :
    (args.foldl panelStep acc).hasTemporalArg =
      (acc.hasTemporalArg ||
        args.any (fun e => getControlForArgument e.2 = "granularity_sqla")) := by
  induction args generalizing acc with
  | nil => simp
  | cons e rest ih =>
    rw [List.foldl_cons, ih (panelStep acc e), panelStep_temporal,
      List.any_cons, Bool.or_assoc]

/-- C5: as soon as the argument map holds a Temporal-kind argument, the Query
section of the generated panel starts with exactly the time-column row
`['x_axis']` followed by the time-grain row `['time_grain_sqla']`, ahead of
every metric/groupby data row and of the final filter row; neither of the two
rows occurs anywhere else, so the pair is added once no matter how many
Temporal arguments there are. -/
theorem claim_C5_temporal_pair (args : List (String × ArgClass))
    (h : ∃ e ∈ args, getControlForArgument e.2 = "granularity_sqla") :
    ∃ s rest, generateControlPanel args = s :: rest ∧ s.label = "Query" ∧
      s.controlSetRows =
        [Control.builtin "x_axis"] :: [Control.builtin "time_grain_sqla"] ::
          (dataControlRows args ++ [[Control.builtin "adhoc_filters"]]) ∧
      (∀ r ∈ dataControlRows args ++ [[Control.builtin "adhoc_filters"]],
        r ≠ [Control.builtin "x_axis"] ∧ r ≠ [Control.builtin "time_grain_sqla"]) := by
  have hT : (args.foldl panelStep ⟨[], [], false⟩).hasTemporalArg = true := by
    rw [panel_foldl_temporal]
    simp only [Bool.false_or, List.any_eq_true]
    obtain ⟨e, he, hctl⟩ := h
    exact ⟨e, he, by simp [hctl]⟩
  have hQ : (args.foldl panelStep ⟨[], [], false⟩).queryControls =
      dataControlRows args := by
    rw [panel_foldl_query]
    rfl
  have hmain : generateControlPanel args =
      (⟨"Query", true,
        [Control.builtin "x_axis"] :: [Control.builtin "time_grain_sqla"] ::
          (dataControlRows args ++ [[Control.builtin "adhoc_filters"]])⟩ :
            PanelSection) ::
        (if (args.foldl panelStep ⟨[], [], false⟩).customizeControls.isEmpty
         then []
         else [⟨"Customize", true,
            (args.foldl panelStep ⟨[], [], false⟩).customizeControls⟩]) := by
    simp only [generateControlPanel]
    rw [hT, hQ]
    simp
  refine ⟨_, _, hmain, rfl, rfl, ?_⟩
  intro r hr
  rcases List.mem_append.1 hr with hr | hr
  · simp only [dataControlRows, List.mem_filterMap] at hr
    obtain ⟨e, _, hfe⟩ := hr
    by_cases hm : getControlForArgument e.2 = "metric"
    · simp only [hm, true_or, if_true, Option.some.injEq] at hfe
      subst hfe
      constructor <;> decide
    · by_cases hg : getControlForArgument e.2 = "groupby"
      · simp only [hg, or_true, if_true, Option.some.injEq] at hfe
        subst hfe
        constructor <;> decide
      · simp [hm, hg] at hfe
  · simp only [List.mem_singleton] at hr
    subst hr
    constructor <;> decide

/-- Witness for C5 at a chart with one Temporal and one Metric argument. -/
theorem claim_C5_witness :
    ∃ s rest,
      generateControlPanel [("time", TemporalC), ("metric", MetricC)] = s :: rest ∧
      s.label = "Query" ∧
      s.controlSetRows =
        [Control.builtin "x_axis"] :: [Control.builtin "time_grain_sqla"] ::
          (dataControlRows [("time", TemporalC), ("metric", MetricC)] ++
            [[Control.builtin "adhoc_filters"]]) ∧
      (∀ r ∈ dataControlRows [("time", TemporalC), ("metric", MetricC)] ++
          [[Control.builtin "adhoc_filters"]],
        r ≠ [Control.builtin "x_axis"] ∧ r ≠ [Control.builtin "time_grain_sqla"]) :=
  claim_C5_temporal_pair [("time", TemporalC), ("metric", MetricC)]
    ⟨("time", TemporalC), by decide, by decide⟩

/-- C6: a chart whose argument map is exactly one built-in `Metric` entry
generates a single Query section whose rows are the metric control followed
by the adhoc-filters control, with no Customize section; and for every
argument map whatsoever the filter row is the last row of the Query
section. -/
theorem claim_C6_metric_only_panel :
    (∀ nm : String, generateControlPanel [(nm, MetricC)] =
      [⟨"Query", true,
        [[Control.builtin "metric"], [Control.builtin "adhoc_filters"]]⟩]) ∧
    (∀ args : List (String × ArgClass), ∃ s rest,
      generateControlPanel args = s :: rest ∧ s.label = "Query" ∧
      s.controlSetRows.getLast? = some [Control.builtin "adhoc_filters"]) := by
  constructor
  · intro nm
    rfl
  · intro args
    refine ⟨_, _, rfl, rfl, ?_⟩
    exact List.getLast?_concat _

/-! ### Claim C9 — the metric branch of the prop transformer -/

theorem transformStep_preserves (fd : QueryFormData)
    (gc : Option (String → List String)) (props : List (String × PropValue))
    (e : String × ArgClass) (nm : String) (h : nm ≠ e.1) :
    alGet (transformStep fd gc props e) nm = alGet props nm := by
  simp only [transformStep]
  split_ifs <;>
    first
      | exact alGet_alSet_ne _ _ _ _ h
      | (cases alGet fd.extra e.1 <;>
          first
            | rfl
            | exact alGet_alSet_ne _ _ _ _ h)

theorem transform_loop_preserves (fd : QueryFormData)
    (gc : Option (String → List String)) (post : List (String × ArgClass))
    (acc : List (String × PropValue)) (nm : String)
    (hpost : nm ∉ post.map Prod.fst) :
    alGet (post.foldl (transformStep fd gc) acc) nm = alGet acc nm := by
  induction post generalizing acc with
  | nil => rfl
  | cons e rest ih =>
    simp only [List.map_cons, List.mem_cons] at hpost
    push_neg at hpost
    rw [List.foldl_cons, ih _ hpost.2, transformStep_preserves _ _ _ _ _ hpost.1]

/-- C9: for every chart whose argument map classifies `nm` as a Metric-kind
argument (and maps no other entry to that name), the transformer always emits
a constructed instance of that class under `nm` — and when the form data has
neither a `metric` field nor a non-empty `metrics` array, the instance's
value is the sentinel string `value` rather than the entry being omitted. -/
theorem claim_C9_metric_always_constructed (args : List (String × ArgClass))
    (gc : Option (String → List String)) (cp : SupersetChartProps Cell)
    (nm : String) (cls : ArgClass) (hmem : (nm, cls) ∈ args)
    (hctrl : getControlForArgument cls = "metric")
    (hnodup : (args.map Prod.fst).Nodup) :
    alGet (generateTransformProps args gc cp) nm =
      some (.argV (.plain cls (transformMetricLabel cp.formData))) ∧
    (cp.formData.metric = none →
      (cp.formData.metrics = none ∨ cp.formData.metrics = some []) →
      transformMetricLabel cp.formData = "value") := by
  constructor
  · have hkind : cls.kind ≠ .int := by
      intro hk
      rw [getControlForArgument] at hctrl
      simp [hk] at hctrl
    obtain ⟨pre, post, rfl⟩ := List.append_of_mem hmem
    have hpost : nm ∉ post.map Prod.fst := by
      rw [List.map_append, List.map_cons] at hnodup
      have h2 := hnodup.of_append_right
      exact (List.nodup_cons.1 h2).1
    unfold generateTransformProps
    rw [show pre ++ (nm, cls) :: post = (pre ++ [(nm, cls)]) ++ post by simp]
    rw [List.foldl_append, List.foldl_append]
    rw [transform_loop_preserves _ _ _ _ _ hpost]
    simp only [List.foldl_cons, List.foldl_nil]
    simp only [transformStep, hctrl]
    simp only [if_true]
    rw [alGet_alSet_eq]
    simp [newInstance, hkind, ctorArgString]
  · intro h1 h2
    unfold transformMetricLabel
    rw [h1]
    rcases h2 with h2 | h2 <;> rw [h2] <;> rfl

/-- Witness for C9: a single-Metric chart with empty form data and no query
rows still receives a `Metric` instance with value `value`. -/
theorem claim_C9_witness :
    alGet (generateTransformProps [("metric", MetricC)] none
      { width := 800, height := 600, formData := {}, queriesData := [] })
      "metric" = some (.argV (.plain MetricC "value")) := by
  have h := claim_C9_metric_always_constructed [("metric", MetricC)] none
    { width := 800, height := 600, formData := {}, queriesData := [] }
    "metric" MetricC (by decide) (by decide) (by decide)
  exact h.2 rfl (Or.inl rfl) ▸ h.1

/-! ### Claim C10 — the row-to-column pivot -/

theorem alGet_map_keys {α : Type} (keys : List String)
    (f : String → List (Option α)) (k : String) :
    alGet (keys.map (fun key => (key, f key))) k =
      if k ∈ keys then some (f k) else none := by
  induction keys with
  | nil => rfl
  | cons h t ih =>
    simp only [List.map_cons, alGet, List.mem_cons]
    by_cases hk : h = k
    · subst hk
      simp
    · simp [hk, ih, Ne.symm hk, fun e : k = h => hk e.symm]

/-- C10: the pivot of the prop transformer takes its column set from the
keys of the first row only — an empty result set pivots to zero columns, a
key missing from the first row contributes no column however often it occurs
later, and each emitted column is the per-row lookup list of a first-row
key, in row order.  The last conjunct ties the pivot to the transformer
output: the `dataFrame` prop is exactly the pivot of the first query's
rows. -/
theorem claim_C10_pivot_first_row :
    (∀ α : Type, pivotColumns ([] : List (DataRow α)) = []) ∧
    (∀ (α : Type) (firstRow : DataRow α) (rest : List (DataRow α)) (k : String),
      k ∉ rowKeys firstRow →
      alGet (pivotColumns (firstRow :: rest)) k = none) ∧
    (∀ (α : Type) (data : List (DataRow α)) (k : String) (col : List (Option α)),
      alGet (pivotColumns data) k = some col →
      col = data.map (fun row => alGet row k) ∧ k ∈ rowKeys (data.headD [])) ∧
    (∀ (gc : Option (String → List String)) (cp : SupersetChartProps Cell),
      alGet (generateTransformProps [] gc cp) "dataFrame" =
        some (.table (pivotColumns (cp.queriesData.head?.getD [])))) := by
  refine ⟨fun α => rfl, ?_, ?_, fun gc cp => rfl⟩
  · intro α firstRow rest k hk
    unfold pivotColumns
    rw [alGet_map_keys]
    simp [rowKeys] at hk
    simp [rowKeys, hk]
  · intro α data k col hcol
    cases data with
    | nil => simp [pivotColumns, alGet] at hcol
    | cons firstRow rest =>
      unfold pivotColumns at hcol
      rw [alGet_map_keys] at hcol
      by_cases hk : k ∈ rowKeys firstRow
      · simp only [hk, if_true, Option.some.injEq] at hcol
        subst hcol
        exact ⟨rfl, hk⟩
      · simp [hk] at hcol

/-- Witness for C10: a key present only in the second row yields no column,
while the first-row key pivots to the per-row lookups. -/
theorem claim_C10_witness :
    alGet (pivotColumns [[("revenue", Cell.num 1234567)],
      [("revenue", Cell.num 2), ("extra", Cell.str "x")]]) "extra" = none ∧
    ([some (Cell.num 1234567), some (Cell.num 2)] =
      [[("revenue", Cell.num 1234567)],
        [("revenue", Cell.num 2), ("extra", Cell.str "x")]].map
          (fun row => alGet row "revenue") ∧
      "revenue" ∈ rowKeys ([[("revenue", Cell.num 1234567)],
        [("revenue", Cell.num 2), ("extra", Cell.str "x")]].headD [])) :=
  ⟨claim_C10_pivot_first_row.2.1 Cell [("revenue", Cell.num 1234567)]
      [[("revenue", Cell.num 2), ("extra", Cell.str "x")]] "extra" (by decide),
    claim_C10_pivot_first_row.2.2.1 Cell
      [[("revenue", Cell.num 1234567)],
        [("revenue", Cell.num 2), ("extra", Cell.str "x")]] "revenue"
      [some (Cell.num 1234567), some (Cell.num 2)] (by decide)⟩

end Glyph
